import Mathlib

/-!
Verification of the command-table loader of `zhinst-toolkit`
(`src/zhinst/toolkit/control/drivers/base/ct.py`, class `CommandTable`).

The loader normalizes a raw command-table input (a JSON string, a list of
entries, or a full document dict), validates the normalized document against
a JSON Schema fetched from a configured URL, and performs a single device
write of the serialized document.

External collaborators (the `json` module, `urllib.request.urlopen`,
`jsonschema.validate` with the Draft-4 validator, and the device write
interface `_set_vector`) are modelled abstractly by an environment of
functions and an event trace, so that the control flow of the loader itself
is embedded faithfully while library internals stay opaque.
-/

namespace ZhinstToolkit

/-- A JSON value, as produced by `json.loads` and consumed by `json.dumps`.
Python dicts are association lists of string keys (insertion ordered),
Python lists are Lean lists. -/
inductive JVal where
  | null
  | bool (b : Bool)
  | num (n : Int)
  | str (s : String)
  | arr (items : List JVal)
  | obj (fields : List (String × JVal))

/-- The raw input universe of `CommandTable.load` / `_to_dict`: the
`isinstance` dispatch distinguishes `str`, `list` and `dict`; every other
Python value (for example the integer `42`) falls into the error branch and
is represented by the `int` constructor. -/
inductive PyInput where
  | str (s : String)
  | list (entries : List JVal)
  | dict (fields : List (String × JVal))
  | int (n : Int)

/-- The error taxonomy of the loader, following the spec's names:
`FormatError` (unsupported input type or malformed JSON, raised in the code
as `ToolkitError` via the logger, or as `json.JSONDecodeError`),
`ValidationError` (from `jsonschema`, carrying the schema constraint path
and the offending value) and `NetworkError` (from `urllib` when the schema
URL is unreachable). -/
inductive TkError where
  | formatError (msg : String)
  | validationError (path : List String) (value : JVal)
  | networkError

/-- Observable side effects of a `load` call: a network fetch of a URL
(`urllib.request.urlopen`) and a device write of a string payload to a node
(`self._device._set_vector(node, payload)`). -/
inductive Event where
  | fetch (url : String)
  | write (node : String) (payload : String)

/-- `Event.isWrite e` holds exactly on device-write events. -/
def Event.isWrite : Event → Bool
  | .write _ _ => true
  | _ => false

/-- `Event.isFetch e` holds exactly on schema-fetch events. -/
def Event.isFetch : Event → Bool
  | .fetch _ => true
  | _ => false

/-- The external library environment: `jsonLoads` models `json.loads`
(returns the parsed value or a decode error), `jsonDumps` models
`json.dumps`, `urlopenRead` models `urllib.request.urlopen(url)` followed by
`.read().decode()` (returns the response body or a network error), and
`draft4Validate` models `jsonschema.validate(doc, schema,
cls=jsonschema.Draft4Validator)` (returns `()` on conformance, or the schema
constraint path together with the offending value). -/
structure Env where
  jsonLoads : String → Except Unit JVal
  jsonDumps : JVal → String
  urlopenRead : String → Except Unit String
  draft4Validate : JVal → JVal → Except (List String × JVal) Unit

/-- The parent AWG core object: the loader reads `parent._index` (the
generator index) and `parent._parent` (the device, modelled by an opaque
identifier). -/
structure AWGCore where
  index : Nat
  parent : String

/-- The `CommandTable` object state, exactly the four attributes set in
`CommandTable.__init__`. -/
structure CommandTable where
  parent : AWGCore
  index : Nat
  device : String
  ct_schema_url : String

/-- `CommandTable.__init__(parent, ct_schema_url)`. -/
def CommandTable.init (parent : AWGCore) (ct_schema_url : String) : CommandTable :=
  { parent := parent
    index := parent.index
    device := parent.parent
    ct_schema_url := ct_schema_url }

/-- The message passed to `_logger.error` in the unsupported-type branch of
`_to_dict` (raised as a `ToolkitError`, the spec's `FormatError`). -/
def ctTypeErrorMsg : String :=
  "The command table should be specified as either a string, or a list " ++
  "of entries without a header, or a valid json as a dictionary."

/-- The message attached to the `FormatError` modelling a
`json.JSONDecodeError`. -/
def jsonDecodeErrorMsg : String := "Expecting value"

/-- `CommandTable._to_dict(table)`: type dispatch on the raw input.
A string is parsed with `json.loads`; a list is wrapped into a full document
with the configured schema URL and the synthesized header; a dict is passed
through unchanged; anything else raises via
`_logger.error(..., ToolkitError)`.

Modelled from the spec: `LoggerModule.error` (in
`zhinst/toolkit/interface`, not part of the sources here) raises the named
exception with the given message; the spec's taxonomy calls it
`FormatError`.

The method assigns no attribute of `self`, so the returned state is `self`
itself. -/
def CommandTable.to_dict (self : CommandTable) (env : Env) (table : PyInput) :
    CommandTable × Except TkError JVal :=
  (self,
    match table with
    | .str s =>
        match env.jsonLoads s with
        | .ok v => .ok v
        | .error _ => .error (.formatError jsonDecodeErrorMsg)
    | .list entries =>
        .ok (.obj
          [("$schema", .str self.ct_schema_url),
           ("header", .obj [("version", .str "0.2"), ("partial", .bool false)]),
           ("table", .arr entries)])
    | .dict fields => .ok (.obj fields)
    | .int _ => .error (.formatError ctTypeErrorMsg))

/-- `CommandTable._validate(table)`: normalize with `_to_dict`, fetch the
schema from `self._ct_schema_url` with `urllib.request.urlopen`, parse it
with `json.loads`, and validate the normalized document with
`jsonschema.validate(..., cls=jsonschema.Draft4Validator)`. Returns the
event trace (the fetch attempt, when reached) together with the validated
document or the error. The method assigns no attribute of `self`. -/
def CommandTable.validate (self : CommandTable) (env : Env) (table : PyInput) :
    CommandTable × List Event × Except TkError JVal :=
  (self,
    match (self.to_dict env table).2 with
    | .error e => ([], .error e)
    | .ok table_updated =>
      match env.urlopenRead self.ct_schema_url with
      | .error _ => ([Event.fetch self.ct_schema_url], .error .networkError)
      | .ok ct_schema_str =>
        match env.jsonLoads ct_schema_str with
        | .error _ =>
            ([Event.fetch self.ct_schema_url], .error (.formatError jsonDecodeErrorMsg))
        | .ok ct_schema_dict =>
          match env.draft4Validate table_updated ct_schema_dict with
          | .error pv =>
              ([Event.fetch self.ct_schema_url], .error (.validationError pv.1 pv.2))
          | .ok _ => ([Event.fetch self.ct_schema_url], .ok table_updated))

/-- `CommandTable.load(table)`: validate, then write the serialized document
to the node `awgs/{index}/commandtable/data` via `_set_vector`. On error the
exception propagates and no write event is emitted; on success `load`
returns `None` (here: no error). The method assigns no attribute of
`self`. -/
def CommandTable.load (self : CommandTable) (env : Env) (table : PyInput) :
    CommandTable × List Event × Option TkError :=
  (self,
    match (self.validate env table).2 with
    | (evs, .error e) => (evs, some e)
    | (evs, .ok table_updated) =>
        (evs ++
          [Event.write ("awgs/" ++ toString self.index ++ "/commandtable/data")
            (env.jsonDumps table_updated)],
         none))

/-- Driver iterating `load` over a list of inputs, threading the object
state and concatenating the event traces; used to express that the schema
is fetched afresh on every call (no caching across calls). -/
def CommandTable.loadAll (self : CommandTable) (env : Env) :
    List PyInput → CommandTable × List Event × List (Option TkError)
  | [] => (self, [], [])
  | t :: ts =>
    let r := self.load env t
    let rest := r.1.loadAll env ts
    (rest.1, r.2.1 ++ rest.2.1, r.2.2 :: rest.2.2)

/-- A concrete AWG core for witnesses. -/
def demoAWG : AWGCore := { index := 0, parent := "hdawg-dev8000" }

/-- A concrete command table object for witnesses. -/
def demoCT : CommandTable :=
  CommandTable.init demoAWG "https://docs.zhinst.com/hdawg/ct/schema"

/-- A concrete environment for witnesses: the only well-formed JSON strings
are `"[]"` (an empty array) and `"\x7b\x7d"` (an empty object, which is also
what the schema URL serves), and every document conforms to the schema. -/
def demoEnv : Env :=
  { jsonLoads := fun s =>
      if s = "[]" then .ok (.arr [])
      else if s = "\x7b\x7d" then .ok (.obj [])
      else .error ()
    jsonDumps := fun _ => "dumped"
    urlopenRead := fun _ => .ok "\x7b\x7d"
    draft4Validate := fun _ _ => .ok () }

/-- A concrete environment whose schema URL is unreachable. -/
def badNetEnv : Env :=
  { demoEnv with urlopenRead := fun _ => .error () }

/-- A concrete environment whose schema URL serves a body that is not valid
JSON. -/
def badSchemaEnv : Env :=
  { demoEnv with urlopenRead := fun _ => .ok "not json" }

/-- A concrete environment whose schema rejects every document. -/
def rejectEnv : Env :=
  { demoEnv with
    draft4Validate := fun doc _ => .error (["table"], doc) }

/-- Helper: `load` never changes the object state. -/
theorem CommandTable.load_fst (self : CommandTable) (env : Env) (table : PyInput) :
    (self.load env table).1 = self := rfl

/-- C3: normalizing a sequence `S` of entries yields the mapping
`{"$schema": u, "header": {"version": "0.2", "partial": false}, "table": S}`
where `u` is the schema URL configured at construction; in particular the
`table` field is `S` itself and the synthesized header is
`{"version": "0.2", "partial": false}`. -/
theorem to_dict_list_wraps (parent : AWGCore) (u : String) (env : Env) (S : List JVal) :
    ((CommandTable.init parent u).to_dict env (.list S)).2 =
      .ok (.obj
        [("$schema", .str u),
         ("header", .obj [("version", .str "0.2"), ("partial", .bool false)]),
         ("table", .arr S)]) := rfl

/-- C4: normalizing a mapping `D` passes it through unchanged: the result is
exactly the input document, with no mutation. -/
theorem to_dict_dict_passthrough (self : CommandTable) (env : Env)
    (D : List (String × JVal)) :
    (self.to_dict env (.dict D)).2 = .ok (.obj D) := rfl

/-- C5: normalizing a string parses it as JSON: if `s` decodes to a document
`D`, the result is `D`; if `s` is not valid JSON, normalization fails with a
`FormatError`. -/
theorem to_dict_string_parses (self : CommandTable) (env : Env) (s : String) :
    (∀ D, env.jsonLoads s = .ok D → (self.to_dict env (.str s)).2 = .ok D) ∧
    (env.jsonLoads s = .error () →
      (self.to_dict env (.str s)).2 = .error (.formatError jsonDecodeErrorMsg)) := by
  constructor
  · intro D h
    simp [CommandTable.to_dict, h]
  · intro h
    simp [CommandTable.to_dict, h]

/-- Witness for C5 at concrete inputs: `"[]"` parses to an empty array and
is returned as such; `"zzz"` is malformed and yields a `FormatError`. -/
theorem to_dict_string_parses_witness :
    (demoCT.to_dict demoEnv (.str "[]")).2 = .ok (.arr []) ∧
    (demoCT.to_dict demoEnv (.str "zzz")).2 =
      .error (.formatError jsonDecodeErrorMsg) :=
  ⟨(to_dict_string_parses demoCT demoEnv "[]").1 (.arr []) rfl,
   (to_dict_string_parses demoCT demoEnv "zzz").2 rfl⟩

set_option maxRecDepth 4000 in
/-- C6: normalizing an input that is neither a string, nor a list, nor a
dict (e.g. an integer) fails with a `FormatError` whose message states that
the input must be a string, a list of entries without a header, or a dict
(each phrase occurs as an infix of the message). -/
theorem to_dict_unsupported_type (self : CommandTable) (env : Env) (n : Int) :
    (self.to_dict env (.int n)).2 = .error (.formatError ctTypeErrorMsg) ∧
    List.IsInfix "a string".toList ctTypeErrorMsg.toList ∧
    List.IsInfix "a list of entries without a header".toList ctTypeErrorMsg.toList ∧
    List.IsInfix "dict".toList ctTypeErrorMsg.toList := by
  refine ⟨rfl, ?_, ?_, ?_⟩ <;> decide

/-- C9: normalizing a string never synthesizes a header: a string that
decodes to a list is returned as that bare list, while the same list given
directly as input is wrapped into a full document, so the two branches
disagree on the same underlying entries. -/
theorem to_dict_string_not_wrapped (self : CommandTable) (env : Env) (s : String)
    (xs : List JVal) (h : env.jsonLoads s = .ok (.arr xs)) :
    (self.to_dict env (.str s)).2 = .ok (.arr xs) ∧
    (self.to_dict env (.str s)).2 ≠ (self.to_dict env (.list xs)).2 := by
  constructor
  · simp [CommandTable.to_dict, h]
  · simp [CommandTable.to_dict, h]

/-- Witness for C9 at a concrete input: `"[]"` decodes to the empty list. -/
theorem to_dict_string_not_wrapped_witness :
    (demoCT.to_dict demoEnv (.str "[]")).2 = .ok (.arr []) ∧
    (demoCT.to_dict demoEnv (.str "[]")).2 ≠ (demoCT.to_dict demoEnv (.list [])).2 :=
  to_dict_string_not_wrapped demoCT demoEnv "[]" [] rfl

/-- C1: when the normalized document fails schema validation (for a schema
that was fetched and parsed), `load` raises a `ValidationError` carrying the
schema constraint path and the offending value, and performs no device
write: validation strictly precedes transmission. -/
theorem load_validation_error_no_write (self : CommandTable) (env : Env)
    (table : PyInput) (doc sd : JVal) (body : String) (p : List String) (v : JVal)
    (hdoc : (self.to_dict env table).2 = .ok doc)
    (hfetch : env.urlopenRead self.ct_schema_url = .ok body)
    (hparse : env.jsonLoads body = .ok sd)
    (hval : env.draft4Validate doc sd = .error (p, v)) :
    (self.load env table).2.2 = some (.validationError p v) ∧
    (self.load env table).2.1.filter Event.isWrite = [] := by
  constructor
  · simp [CommandTable.load, CommandTable.validate, hdoc, hfetch, hparse, hval]
  · simp [CommandTable.load, CommandTable.validate, hdoc, hfetch, hparse, hval,
      Event.isWrite]

/-- Witness for C1: with a schema rejecting every document, loading an empty
document fails with `ValidationError` and emits no write event. -/
theorem load_validation_error_no_write_witness :
    (demoCT.load rejectEnv (PyInput.dict [])).2.2 =
      some (.validationError ["table"] (.obj [])) ∧
    (demoCT.load rejectEnv (PyInput.dict [])).2.1.filter Event.isWrite = [] :=
  load_validation_error_no_write demoCT rejectEnv (.dict []) (.obj []) (.obj [])
    "\x7b\x7d" ["table"] (.obj []) rfl rfl rfl rfl

/-- C2: when the normalized document conforms to the fetched schema, `load`
performs exactly one device write, whose payload is the JSON serialization
of the normalized document and whose target node is
`awgs/{index}/commandtable/data` for the owning generator's index, and the
call returns without error (no return value). -/
theorem load_conformant_single_write (self : CommandTable) (env : Env)
    (table : PyInput) (doc sd : JVal) (body : String)
    (hdoc : (self.to_dict env table).2 = .ok doc)
    (hfetch : env.urlopenRead self.ct_schema_url = .ok body)
    (hparse : env.jsonLoads body = .ok sd)
    (hval : env.draft4Validate doc sd = .ok ()) :
    (self.load env table).2.1.filter Event.isWrite =
      [Event.write ("awgs/" ++ toString self.index ++ "/commandtable/data")
        (env.jsonDumps doc)] ∧
    (self.load env table).2.2 = none := by
  constructor
  · simp [CommandTable.load, CommandTable.validate, hdoc, hfetch, hparse, hval,
      Event.isWrite, Event.isFetch]
  · simp [CommandTable.load, CommandTable.validate, hdoc, hfetch, hparse, hval]

/-- Witness for C2: loading an empty document with a conformant schema
writes `awgs/0/commandtable/data` exactly once. -/
theorem load_conformant_single_write_witness :
    (demoCT.load demoEnv (PyInput.dict [])).2.1.filter Event.isWrite =
      [Event.write ("awgs/" ++ toString demoCT.index ++ "/commandtable/data")
        (demoEnv.jsonDumps (.obj []))] ∧
    (demoCT.load demoEnv (PyInput.dict [])).2.2 = none :=
  load_conformant_single_write demoCT demoEnv (.dict []) (.obj []) (.obj [])
    "\x7b\x7d" rfl rfl rfl rfl

/-- Counterexample to C7 as stated: a `load` call whose input is of an
unsupported type (the integer 42) fails during normalization and performs
no schema fetch at all, so it is not the case that every call performs
exactly one fetch. -/
theorem load_no_fetch_counterexample :
    (demoCT.load demoEnv (PyInput.int 42)).2.1 = [] ∧
    ¬ ((demoCT.load demoEnv (PyInput.int 42)).2.1.filter Event.isFetch).length = 1 :=
  ⟨rfl, by decide⟩

/-- C7 (amended): every `load` call whose input passes normalization
performs exactly one schema fetch, at the URL configured at construction,
and nothing is cached across calls: a sequence of such calls performs one
fresh fetch per call. -/
theorem load_fetches_once_per_call (self : CommandTable) (env : Env) :
    (∀ table doc, (self.to_dict env table).2 = .ok doc →
      (self.load env table).2.1.filter Event.isFetch =
        [Event.fetch self.ct_schema_url]) ∧
    (∀ tables : List PyInput,
      (∀ t ∈ tables, ∃ doc, (self.to_dict env t).2 = .ok doc) →
      ((self.loadAll env tables).2.1.filter Event.isFetch).length = tables.length) := by
  have one : ∀ table doc, (self.to_dict env table).2 = .ok doc →
      (self.load env table).2.1.filter Event.isFetch =
        [Event.fetch self.ct_schema_url] := by
    intro table doc hdoc
    cases hfetch : env.urlopenRead self.ct_schema_url with
    | error e =>
      simp [CommandTable.load, CommandTable.validate, hdoc, hfetch, Event.isFetch]
    | ok body =>
      cases hparse : env.jsonLoads body with
      | error e =>
        simp [CommandTable.load, CommandTable.validate, hdoc, hfetch, hparse,
          Event.isFetch]
      | ok sd =>
        cases hval : env.draft4Validate doc sd with
        | error pv =>
          simp [CommandTable.load, CommandTable.validate, hdoc, hfetch, hparse,
            hval, Event.isFetch]
        | ok u =>
          simp [CommandTable.load, CommandTable.validate, hdoc, hfetch, hparse,
            hval, Event.isFetch]
  refine ⟨one, ?_⟩
  intro tables h
  induction tables with
  | nil => simp [CommandTable.loadAll]
  | cons t ts ih =>
    obtain ⟨doc, hdoc⟩ := h t (by simp)
    have h1 := one t doc hdoc
    have hrest : ∀ t' ∈ ts, ∃ d, (self.to_dict env t').2 = .ok d := by
      intro t' ht'
      exact h t' (by simp [ht'])
    calc ((self.loadAll env (t :: ts)).2.1.filter Event.isFetch).length
        = (((self.load env t).2.1 ++ (self.loadAll env ts).2.1).filter
            Event.isFetch).length := by
          rw [CommandTable.loadAll]
          simp [CommandTable.load_fst]
      _ = ts.length + 1 := by
          rw [List.filter_append, List.length_append, h1, ih hrest]
          simp [Nat.add_comm]

/-- Witness for C7 (amended): one conformant call fetches once; two
consecutive calls fetch twice. -/
theorem load_fetches_once_per_call_witness :
    (demoCT.load demoEnv (PyInput.dict [])).2.1.filter Event.isFetch =
      [Event.fetch demoCT.ct_schema_url] ∧
    ((demoCT.loadAll demoEnv [PyInput.dict [], PyInput.list []]).2.1.filter
      Event.isFetch).length = 2 :=
  ⟨(load_fetches_once_per_call demoCT demoEnv).1 (.dict []) (.obj []) rfl,
   (load_fetches_once_per_call demoCT demoEnv).2 [PyInput.dict [], PyInput.list []]
     (by
       intro t ht
       simp only [List.mem_cons, List.not_mem_nil, or_false] at ht
       rcases ht with h | h
       · exact ⟨.obj [], by rw [h]; rfl⟩
       · exact ⟨.obj
           [("$schema", .str demoCT.ct_schema_url),
            ("header", .obj [("version", .str "0.2"), ("partial", .bool false)]),
            ("table", .arr [])], by rw [h]; rfl⟩)⟩

/-- Counterexample to C8 as stated: with an unreachable schema URL but an
input of unsupported type, `load` fails with the normalization
`FormatError`, not with `NetworkError`, so the unreachable-URL clause does
not hold for every input table. -/
theorem load_unreachable_counterexample :
    badNetEnv.urlopenRead demoCT.ct_schema_url = .error () ∧
    (demoCT.load badNetEnv (PyInput.int 42)).2.2 =
      some (.formatError ctTypeErrorMsg) ∧
    TkError.formatError ctTypeErrorMsg ≠ TkError.networkError :=
  ⟨rfl, rfl, by simp⟩

/-- C8 (amended): for every input that passes normalization, an unreachable
schema URL makes `load` raise `NetworkError` with no device write, and a
schema body that is not valid JSON makes `load` fail with `FormatError`
with no device write. -/
theorem load_schema_errors_no_write (self : CommandTable) (env : Env)
    (table : PyInput) (doc : JVal)
    (hdoc : (self.to_dict env table).2 = .ok doc) :
    (env.urlopenRead self.ct_schema_url = .error () →
      (self.load env table).2.2 = some .networkError ∧
      (self.load env table).2.1.filter Event.isWrite = []) ∧
    (∀ body, env.urlopenRead self.ct_schema_url = .ok body →
      env.jsonLoads body = .error () →
      (self.load env table).2.2 = some (.formatError jsonDecodeErrorMsg) ∧
      (self.load env table).2.1.filter Event.isWrite = []) := by
  constructor
  · intro hfetch
    constructor
    · simp [CommandTable.load, CommandTable.validate, hdoc, hfetch]
    · simp [CommandTable.load, CommandTable.validate, hdoc, hfetch, Event.isWrite]
  · intro body hfetch hparse
    constructor
    · simp [CommandTable.load, CommandTable.validate, hdoc, hfetch, hparse]
    · simp [CommandTable.load, CommandTable.validate, hdoc, hfetch, hparse,
        Event.isWrite]

/-- Witness for C8 (amended): an empty document input, once with an
unreachable URL and once with a non-JSON schema body. -/
theorem load_schema_errors_no_write_witness :
    ((demoCT.load badNetEnv (PyInput.dict [])).2.2 = some .networkError ∧
      (demoCT.load badNetEnv (PyInput.dict [])).2.1.filter Event.isWrite = []) ∧
    ((demoCT.load badSchemaEnv (PyInput.dict [])).2.2 =
        some (.formatError jsonDecodeErrorMsg) ∧
      (demoCT.load badSchemaEnv (PyInput.dict [])).2.1.filter Event.isWrite = []) :=
  ⟨(load_schema_errors_no_write demoCT badNetEnv (.dict []) (.obj []) rfl).1 rfl,
   (load_schema_errors_no_write demoCT badSchemaEnv (.dict []) (.obj []) rfl).2
     "not json" rfl rfl⟩

/-- C10: no operation of the loader mutates the object state: `_to_dict`,
`_validate` and `load` all leave the `CommandTable` fields (parent,
generator index, device, schema URL) unchanged, on success and on error
alike. -/
theorem loader_state_unchanged (self : CommandTable) (env : Env) (table : PyInput) :
    (self.to_dict env table).1 = self ∧
    (self.validate env table).1 = self ∧
    (self.load env table).1 = self :=
  ⟨rfl, rfl, rfl⟩

end ZhinstToolkit
